import Mathlib

/-!
Verification development for the multi-warehouse inventory ledger backend.

The definitions below are a shallow embedding of the mutation core of the
repository: the Sale, Purchase, Transfer and Adjustment handlers
(`backend/app/api/sales.py`, `purchases.py`, `transfers.py`,
`backend/scripts/reconcile_inventory.py`), the access checks
(`backend/app/core/auth.py`) and the inventory listing endpoints
(`backend/app/api/inventory.py`).

Modelling conventions:
* ids (UUID strings in the source) are `String`;
* Python ints are `Int`, prices (Python floats, only copied and compared
  by this core) are `ℚ`;
* the persistent store is a `DB` record of lists; `inventory_items` rows
  are keyed by the composite key (warehouse_id, product_id) — the source
  looks rows up by this pair and updates the row it found;
* each handler is a function from the current `DB` and the request to
  `Except Err (DB × response)`; an `Except.error` result models an
  HTTPException raised before any write, so the store is unchanged;
* `create_transfer_upto` additionally models the source's sequential,
  non-transactional write sequence with a storage failure injected after
  a given number of successful writes (the `try` block of
  `create_transfer` performs its four writes one by one and has no
  rollback).
-/

namespace Inventory

/-- Transaction type enum (`TransactionType` in `app/models/schemas.py`). -/
inductive TransactionType where
  | SALE
  | RESTOCK
  | TRANSFER_OUT
  | TRANSFER_IN
  | ADJUSTMENT
deriving DecidableEq, Repr

/-- A catalog product row (`products` table): three optional price tiers. -/
structure Product where
  id : String
  sku : String
  name : String
  brand : String
  retail_price : Option ℚ
  wholesale_price : Option ℚ
  cost_price : Option ℚ
deriving DecidableEq, Repr

/-- A warehouse row (`warehouses` table). -/
structure Warehouse where
  id : String
  name : String
  manager_id : Option String
deriving DecidableEq, Repr

/-- A stock-ledger row (`inventory_items` table), keyed by
(warehouse_id, product_id). -/
structure InventoryItem where
  warehouse_id : String
  product_id : String
  quantity_on_hand : Int
deriving DecidableEq, Repr

/-- An append-only transaction-log row (`transactions` table). -/
structure Txn where
  transaction_type : TransactionType
  product_id : String
  from_warehouse_id : Option String
  to_warehouse_id : Option String
  quantity : Int
  unit_price : Option ℚ
  reference_note : Option String
  created_by : Option String
deriving DecidableEq, Repr

/-- The persistent store as seen by the mutation core. -/
structure DB where
  warehouses : List Warehouse
  products : List Product
  inventory_items : List InventoryItem
  transactions : List Txn
deriving DecidableEq, Repr

/-- Authenticated user context (`UserContext` in `app/core/auth.py`). -/
structure UserContext where
  user_id : String
  role : String
  warehouse_id : Option String
deriving DecidableEq, Repr

/-- One constructor per HTTPException raise-site reachable in the embedded
handlers. -/
inductive Err where
  | saleForbidden
  | saleWarehouseNotFound
  | saleProductNotFound
  | salePriceBelowCost
  | saleNotInWarehouse
  | saleInsufficientStock
  | purchaseForbidden
  | purchaseWarehouseNotFound
  | purchaseProductNotFound
  | transferAdminRequired
  | transferSourceWarehouseNotFound
  | transferDestWarehouseNotFound
  | transferProductNotFound
  | transferNotInSource
  | transferInsufficientStock
  | inventoryForbidden
  | inventoryWarehouseNotFound
  | transactionsForbidden
  | transactionsWarehouseNotFound
  | storageFailure
deriving DecidableEq, Repr

/-- HTTP status code each error is surfaced with in the source. -/
def Err.httpStatus : Err → Nat
  | .saleForbidden => 403
  | .saleWarehouseNotFound => 404
  | .saleProductNotFound => 404
  | .salePriceBelowCost => 400
  | .saleNotInWarehouse => 400
  | .saleInsufficientStock => 400
  | .purchaseForbidden => 403
  | .purchaseWarehouseNotFound => 404
  | .purchaseProductNotFound => 404
  | .transferAdminRequired => 403
  | .transferSourceWarehouseNotFound => 404
  | .transferDestWarehouseNotFound => 404
  | .transferProductNotFound => 404
  | .transferNotInSource => 400
  | .transferInsufficientStock => 400
  | .inventoryForbidden => 403
  | .inventoryWarehouseNotFound => 404
  | .transactionsForbidden => 403
  | .transactionsWarehouseNotFound => 404
  | .storageFailure => 500

/-- Ledger-row key match, the filter
`.eq("warehouse_id", w).eq("product_id", p)` used by every handler. -/
def keyMatches (it : InventoryItem) (w p : String) : Bool :=
  it.warehouse_id == w && it.product_id == p

/-- `warehouses.select(...).eq("id", wid)` returning the first row. -/
def findWarehouse (db : DB) (wid : String) : Option Warehouse :=
  db.warehouses.find? (fun w => w.id == wid)

/-- `products.select(...).eq("id", pid)` returning the first row. -/
def findProduct (db : DB) (pid : String) : Option Product :=
  db.products.find? (fun p => p.id == pid)

/-- `inventory_items` lookup by (warehouse_id, product_id). -/
def findItem (db : DB) (w p : String) : Option InventoryItem :=
  db.inventory_items.find? (fun it => keyMatches it w p)

/-- `inventory_items.update({"quantity_on_hand": q})` on the row found for
(w, p). -/
def setItemQty (db : DB) (w p : String) (q : Int) : DB :=
  { db with inventory_items :=
      db.inventory_items.map (fun it =>
        if keyMatches it w p then { it with quantity_on_hand := q } else it) }

/-- `inventory_items.insert({...})` creating a fresh ledger row. -/
def insertItem (db : DB) (w p : String) (q : Int) : DB :=
  { db with inventory_items := db.inventory_items ++ [⟨w, p, q⟩] }

/-- `transactions.insert({...})`: the log is append-only. -/
def appendTxn (db : DB) (t : Txn) : DB :=
  { db with transactions := db.transactions ++ [t] }

/-- Quantity on hand of product `p` at warehouse `w`, an absent row
counting as 0. -/
def stockOf (db : DB) (w p : String) : Int :=
  match findItem db w p with
  | some it => it.quantity_on_hand
  | none => 0

/-- Access-policy contract of `require_warehouse_access`
(`app/core/auth.py`): admins always pass, every other role passes exactly
when its assigned warehouse is the target. -/
def can_access (user : UserContext) (warehouse_id : String) : Bool :=
  user.role == "admin" || user.warehouse_id == some warehouse_id

/-- `SaleRequest` (`app/models/schemas.py`); pydantic enforces
`quantity > 0` and `unit_price ≥ 0` before the handler runs. -/
structure SaleRequest where
  warehouse_id : String
  product_id : String
  quantity : Int
  unit_price : Option ℚ
  reference_note : Option String
deriving DecidableEq, Repr

/-- `SaleResponse` fields the core computes (ids generated by the store
are omitted). -/
structure SaleResponse where
  warehouse_id : String
  product_id : String
  quantity : Int
  unit_price : Option ℚ
  new_stock_level : Int
deriving DecidableEq, Repr

/-- Effective price: the provided value, else the catalog fallback
(`final_unit_price` / `final_unit_cost` computation in the handlers). -/
def effectivePrice (provided fallback : Option ℚ) : Option ℚ :=
  match provided with
  | some p => some p
  | none => fallback

/-- Margin guard condition of `record_sale`: both prices known and the
sale price strictly below cost. -/
def marginViolated (price cost : Option ℚ) : Bool :=
  match price, cost with
  | some p, some c => decide (p < c)
  | _, _ => false

/-- The SALE row `record_sale` appends. -/
def saleTxn (sale : SaleRequest) (uid : String) (price : Option ℚ) : Txn :=
  { transaction_type := .SALE
    product_id := sale.product_id
    from_warehouse_id := some sale.warehouse_id
    to_warehouse_id := none
    quantity := sale.quantity
    unit_price := price
    reference_note := sale.reference_note
    created_by := some uid }

/-- `record_sale` (`app/api/sales.py`): access check, warehouse/product
resolution, effective-price computation, margin guard, stock guard, then
decrement + one SALE transaction. -/
def record_sale (db : DB) (user : UserContext) (sale : SaleRequest) :
    Except Err (DB × SaleResponse) :=
  if user.role != "admin" && user.warehouse_id != some sale.warehouse_id then
    .error .saleForbidden
  else
    match findWarehouse db sale.warehouse_id with
    | none => .error .saleWarehouseNotFound
    | some _warehouse =>
      match findProduct db sale.product_id with
      | none => .error .saleProductNotFound
      | some product =>
        let final_unit_price := effectivePrice sale.unit_price product.retail_price
        if marginViolated final_unit_price product.cost_price then
          .error .salePriceBelowCost
        else
          match findItem db sale.warehouse_id sale.product_id with
          | none => .error .saleNotInWarehouse
          | some inventory =>
            let current_stock := inventory.quantity_on_hand
            if current_stock < sale.quantity then
              .error .saleInsufficientStock
            else
              let new_stock := current_stock - sale.quantity
              let db1 := setItemQty db sale.warehouse_id sale.product_id new_stock
              let db2 := appendTxn db1 (saleTxn sale user.user_id final_unit_price)
              .ok (db2, {
                warehouse_id := sale.warehouse_id
                product_id := sale.product_id
                quantity := sale.quantity
                unit_price := final_unit_price
                new_stock_level := new_stock })

/-- `PurchaseRequest` (`app/models/schemas.py`); pydantic enforces
`quantity > 0` and `unit_cost ≥ 0`. -/
structure PurchaseRequest where
  warehouse_id : String
  product_id : String
  quantity : Int
  unit_cost : Option ℚ
  reference_note : Option String
deriving DecidableEq, Repr

/-- `PurchaseResponse` fields the core computes. -/
structure PurchaseResponse where
  warehouse_id : String
  product_id : String
  quantity : Int
  unit_cost : Option ℚ
  new_stock_level : Int
deriving DecidableEq, Repr

/-- The RESTOCK row `record_purchase` appends. -/
def restockTxn (purchase : PurchaseRequest) (uid : String) (cost : Option ℚ) : Txn :=
  { transaction_type := .RESTOCK
    product_id := purchase.product_id
    from_warehouse_id := none
    to_warehouse_id := some purchase.warehouse_id
    quantity := purchase.quantity
    unit_price := cost
    reference_note := purchase.reference_note
    created_by := some uid }

/-- `record_purchase` (`app/api/purchases.py`): admin-only; upserts the
ledger row (create with the requested quantity when absent, else add) and
appends one RESTOCK transaction carrying the effective cost. -/
def record_purchase (db : DB) (user : UserContext) (purchase : PurchaseRequest) :
    Except Err (DB × PurchaseResponse) :=
  if user.role != "admin" then
    .error .purchaseForbidden
  else
    match findWarehouse db purchase.warehouse_id with
    | none => .error .purchaseWarehouseNotFound
    | some _warehouse =>
      match findProduct db purchase.product_id with
      | none => .error .purchaseProductNotFound
      | some product =>
        let final_unit_cost := effectivePrice purchase.unit_cost product.cost_price
        let (db1, new_stock) :=
          match findItem db purchase.warehouse_id purchase.product_id with
          | some inventory =>
            let new_stock := inventory.quantity_on_hand + purchase.quantity
            (setItemQty db purchase.warehouse_id purchase.product_id new_stock, new_stock)
          | none =>
            (insertItem db purchase.warehouse_id purchase.product_id purchase.quantity,
             purchase.quantity)
        let db2 := appendTxn db1 (restockTxn purchase user.user_id final_unit_cost)
        .ok (db2, {
          warehouse_id := purchase.warehouse_id
          product_id := purchase.product_id
          quantity := purchase.quantity
          unit_cost := final_unit_cost
          new_stock_level := new_stock })

/-- `TransferRequest` (`app/models/schemas.py`); pydantic enforces
`quantity > 0`. -/
structure TransferRequest where
  from_warehouse_id : String
  to_warehouse_id : String
  product_id : String
  quantity : Int
  reference_note : Option String
deriving DecidableEq, Repr

/-- `TransferResponse` fields the core computes. -/
structure TransferResponse where
  from_warehouse_id : String
  to_warehouse_id : String
  product_id : String
  quantity : Int
deriving DecidableEq, Repr

/-- The TRANSFER_OUT row `create_transfer` appends (note defaulting to a
mention of the destination warehouse). -/
def transferOutTxn (t : TransferRequest) (destName : String) (uid : String) : Txn :=
  { transaction_type := .TRANSFER_OUT
    product_id := t.product_id
    from_warehouse_id := some t.from_warehouse_id
    to_warehouse_id := some t.to_warehouse_id
    quantity := t.quantity
    unit_price := none
    reference_note := some ((t.reference_note).getD ("Transfer to " ++ destName))
    created_by := some uid }

/-- The TRANSFER_IN row `create_transfer` appends (note defaulting to a
mention of the source warehouse). -/
def transferInTxn (t : TransferRequest) (sourceName : String) (uid : String) : Txn :=
  { transaction_type := .TRANSFER_IN
    product_id := t.product_id
    from_warehouse_id := some t.from_warehouse_id
    to_warehouse_id := some t.to_warehouse_id
    quantity := t.quantity
    unit_price := none
    reference_note := some ((t.reference_note).getD ("Transfer from " ++ sourceName))
    created_by := some uid }

/-- Destination upsert of `create_transfer` (step 2 of the write
sequence): re-reads the destination row in the state left by the source
decrement, then increments it or creates it. -/
def transferDestUpsert (db : DB) (t : TransferRequest) : DB :=
  match findItem db t.to_warehouse_id t.product_id with
  | some dest_inventory =>
    setItemQty db t.to_warehouse_id t.product_id
      (dest_inventory.quantity_on_hand + t.quantity)
  | none => insertItem db t.to_warehouse_id t.product_id t.quantity

/-- `create_transfer` (`app/api/transfers.py`): `require_admin`, both
warehouses and the product resolved, source row present with sufficient
stock, then four sequential writes: source decrement, destination upsert,
TRANSFER_OUT append, TRANSFER_IN append. -/
def create_transfer (db : DB) (user : UserContext) (t : TransferRequest) :
    Except Err (DB × TransferResponse) :=
  if user.role != "admin" then
    .error .transferAdminRequired
  else
    match findWarehouse db t.from_warehouse_id with
    | none => .error .transferSourceWarehouseNotFound
    | some source =>
      match findWarehouse db t.to_warehouse_id with
      | none => .error .transferDestWarehouseNotFound
      | some dest =>
        match findProduct db t.product_id with
        | none => .error .transferProductNotFound
        | some _product =>
          match findItem db t.from_warehouse_id t.product_id with
          | none => .error .transferNotInSource
          | some source_inventory =>
            let current_stock := source_inventory.quantity_on_hand
            if current_stock < t.quantity then
              .error .transferInsufficientStock
            else
              let db1 := setItemQty db t.from_warehouse_id t.product_id
                (current_stock - t.quantity)
              let db2 := transferDestUpsert db1 t
              let db3 := appendTxn db2 (transferOutTxn t dest.name user.user_id)
              let db4 := appendTxn db3 (transferInTxn t source.name user.user_id)
              .ok (db4, {
                from_warehouse_id := t.from_warehouse_id
                to_warehouse_id := t.to_warehouse_id
                product_id := t.product_id
                quantity := t.quantity })

/-- `create_transfer` with a storage failure injected inside the `try`
block: writes are performed one at a time (the client has no
transactions), the first `okWrites` of the four writes succeed, and a
later write raises, which the handler surfaces as a 500 — with every
already-performed write still visible. `okWrites ≥ 4` is an
unhindered run. Returns the visible store together with the outcome. -/
def create_transfer_upto (db : DB) (user : UserContext) (t : TransferRequest)
    (okWrites : Nat) : DB × Except Err TransferResponse :=
  if user.role != "admin" then
    (db, .error .transferAdminRequired)
  else
    match findWarehouse db t.from_warehouse_id with
    | none => (db, .error .transferSourceWarehouseNotFound)
    | some source =>
      match findWarehouse db t.to_warehouse_id with
      | none => (db, .error .transferDestWarehouseNotFound)
      | some dest =>
        match findProduct db t.product_id with
        | none => (db, .error .transferProductNotFound)
        | some _product =>
          match findItem db t.from_warehouse_id t.product_id with
          | none => (db, .error .transferNotInSource)
          | some source_inventory =>
            let current_stock := source_inventory.quantity_on_hand
            if current_stock < t.quantity then
              (db, .error .transferInsufficientStock)
            else if okWrites = 0 then
              (db, .error .storageFailure)
            else
              let db1 := setItemQty db t.from_warehouse_id t.product_id
                (current_stock - t.quantity)
              if okWrites = 1 then
                (db1, .error .storageFailure)
              else
                let db2 := transferDestUpsert db1 t
                if okWrites = 2 then
                  (db2, .error .storageFailure)
                else
                  let db3 := appendTxn db2 (transferOutTxn t dest.name user.user_id)
                  if okWrites = 3 then
                    (db3, .error .storageFailure)
                  else
                    let db4 := appendTxn db3 (transferInTxn t source.name user.user_id)
                    (db4, .ok {
                      from_warehouse_id := t.from_warehouse_id
                      to_warehouse_id := t.to_warehouse_id
                      product_id := t.product_id
                      quantity := t.quantity })

/-- One CSV row accepted by `parse_csv` in
`backend/scripts/reconcile_inventory.py` (rows with `qty > 0` only),
already matched to a product; the script targets the fixed main
warehouse, kept as a field here. -/
structure AdjustmentItem where
  warehouse_id : String
  product_id : String
  quantity : Int
  reference_note : Option String
deriving DecidableEq, Repr

/-- Per-item body of the reconciliation loop
(`reconcile_inventory.py`): get-or-create the ledger row, add the
quantity, append one ADJUSTMENT transaction (no authenticated user). -/
def apply_adjustment (db : DB) (a : AdjustmentItem) : DB :=
  let db1 :=
    match findItem db a.warehouse_id a.product_id with
    | some inventory =>
      setItemQty db a.warehouse_id a.product_id
        (inventory.quantity_on_hand + a.quantity)
    | none => insertItem db a.warehouse_id a.product_id a.quantity
  appendTxn db1 {
    transaction_type := .ADJUSTMENT
    product_id := a.product_id
    from_warehouse_id := none
    to_warehouse_id := some a.warehouse_id
    quantity := a.quantity
    unit_price := none
    reference_note := a.reference_note
    created_by := none }

/-- Case-folded characters of a string, for `ilike` matching. -/
def strLower (s : String) : List Char :=
  s.toList.map Char.toLower

/-- `needle` occurs at the head of `hay`. -/
def segAt (needle hay : List Char) : Bool :=
  match needle, hay with
  | [], _ => true
  | _ :: _, [] => false
  | a :: as, b :: bs => a == b && segAt as bs

/-- `needle` occurs somewhere in `hay`. -/
def hasSeg (hay needle : List Char) : Bool :=
  match hay with
  | [] => needle.isEmpty
  | _ :: tl => segAt needle hay || hasSeg tl needle

/-- `field ilike %term%`: case-insensitive containment. -/
def ilikeContains (field term : String) : Bool :=
  hasSeg (strLower field) (strLower term)

/-- The search filter of `get_warehouse_inventory`:
`sku.ilike.%s%,name.ilike.%s%,brand.ilike.%s%` (or-ed). -/
def matchesSearch (term : String) (p : Product) : Bool :=
  ilikeContains p.sku term || ilikeContains p.name term || ilikeContains p.brand term

/-- Python truthiness of the `search` parameter: `if search:` is taken for
a present, non-empty string only. -/
def searchActive : Option String → Bool
  | none => false
  | some s => !s.isEmpty

/-- Ids of catalog products matching the search term (the preliminary
products query of `get_warehouse_inventory`). -/
def searchProductIds (db : DB) (term : String) : List String :=
  (db.products.filter (fun p => matchesSearch term p)).map (fun p => p.id)

/-- Count of this warehouse's ledger rows with `quantity_on_hand < 5`
(the separate `lt("quantity_on_hand", 5)` count query; threshold written
literally in the source). -/
def lowStockCount (db : DB) (wid : String) : Nat :=
  (db.inventory_items.filter
    (fun it => it.warehouse_id == wid && decide (it.quantity_on_hand < 5))).length

/-- `InventoryListResponse` as computed by `get_warehouse_inventory`
(each item joined with its catalog product; store-generated row ids
omitted). -/
structure InventoryListResponse where
  warehouse_id : String
  warehouse_name : String
  items : List (InventoryItem × Option Product)
  total_items : Nat
  page : Nat
  page_size : Nat
  low_stock_count : Nat
deriving DecidableEq, Repr

/-- `get_warehouse_inventory` (`app/api/inventory.py`): access check,
warehouse resolution, optional search-by-product, pagination via
`range(start, start+page_size-1)`, plus the separate low-stock count.
A non-empty search matching no catalog product returns the empty
response early (with `low_stock_count = 0`). -/
def get_warehouse_inventory (db : DB) (user : UserContext) (warehouse_id : String)
    (page page_size : Nat) (search : Option String) :
    Except Err InventoryListResponse :=
  if user.role != "admin" && user.warehouse_id != some warehouse_id then
    .error .inventoryForbidden
  else
    match findWarehouse db warehouse_id with
    | none => .error .inventoryWarehouseNotFound
    | some warehouse =>
      let product_ids : Option (List String) :=
        if searchActive search then some (searchProductIds db ((search).getD ""))
        else none
      match product_ids with
      | some [] =>
        .ok { warehouse_id := warehouse_id
              warehouse_name := warehouse.name
              items := []
              total_items := 0
              page := page
              page_size := page_size
              low_stock_count := 0 }
      | pids =>
        let base : List InventoryItem :=
          db.inventory_items.filter (fun it => it.warehouse_id == warehouse_id)
        let filtered : List InventoryItem :=
          match pids with
          | some ids => base.filter (fun it => ids.contains it.product_id)
          | none => base
        let start := (page - 1) * page_size
        let pageItems := (filtered.drop start).take page_size
        .ok { warehouse_id := warehouse_id
              warehouse_name := warehouse.name
              items := pageItems.map (fun it => (it, findProduct db it.product_id))
              total_items := filtered.length
              page := page
              page_size := page_size
              low_stock_count := lowStockCount db warehouse_id }

/-- Per-warehouse summary built by `get_all_inventory` (that endpoint
sets no pagination fields). -/
structure WarehouseInventorySummary where
  warehouse_id : String
  warehouse_name : String
  items : List (InventoryItem × Option Product)
  total_items : Nat
  low_stock_count : Nat
deriving DecidableEq, Repr

/-- `get_all_inventory` (`app/api/inventory.py`): one summary per
accessible warehouse; the low-stock counter is incremented in the item
loop for `quantity_on_hand < 5`. -/
def get_all_inventory (db : DB) (user : UserContext) : List WarehouseInventorySummary :=
  let whs :=
    if user.role == "admin" then db.warehouses
    else db.warehouses.filter (fun w => some w.id == user.warehouse_id)
  whs.map (fun w =>
    let its := db.inventory_items.filter (fun it => it.warehouse_id == w.id)
    { warehouse_id := w.id
      warehouse_name := w.name
      items := its.map (fun it => (it, findProduct db it.product_id))
      total_items := its.length
      low_stock_count := (its.filter (fun it => decide (it.quantity_on_hand < 5))).length })

/-- Python truthiness of the `brand` parameter of
`get_warehouse_transactions`: `if brand:` is taken for a present,
non-empty string only. -/
def brandActive : Option String → Bool
  | none => false
  | some s => !s.isEmpty

/-- Ids of catalog products with the given brand (the preliminary
`eq("brand", brand)` query of `get_warehouse_transactions`). -/
def brandProductIds (db : DB) (b : String) : List String :=
  (db.products.filter (fun p => p.brand == b)).map (fun p => p.id)

/-- The `or_("from_warehouse_id.eq.W,to_warehouse_id.eq.W")` filter: the
warehouse is the transaction's source or destination. -/
def involvesWarehouse (t : Txn) (wid : String) : Bool :=
  t.from_warehouse_id == some wid || t.to_warehouse_id == some wid

/-- One row of the transaction listing, joined with its product and the
display rows of both warehouses (the per-request warehouse cache of the
source memoizes exactly this lookup). -/
structure TransactionListItem where
  txn : Txn
  product : Option Product
  from_warehouse : Option Warehouse
  to_warehouse : Option Warehouse
deriving DecidableEq, Repr

/-- `TransactionListResponse` as computed by `get_warehouse_transactions`. -/
structure TransactionListResponse where
  items : List TransactionListItem
  total : Nat
  page : Nat
  page_size : Nat
deriving DecidableEq, Repr

/-- `get_warehouse_transactions` (`app/api/transactions.py`): access
check, warehouse resolution, optional brand pre-filter (a brand matching
no product returns the empty response early), then the warehouse's
transactions filtered by optional type and brand, counted before
pagination, ordered newest-first (`created_at` descending over the
append-only log) and paginated via `range(offset, offset+page_size-1)`. -/
def get_warehouse_transactions (db : DB) (user : UserContext) (warehouse_id : String)
    (transaction_type : Option TransactionType) (brand : Option String)
    (page page_size : Nat) : Except Err TransactionListResponse :=
  if user.role != "admin" && user.warehouse_id != some warehouse_id then
    .error .transactionsForbidden
  else
    match findWarehouse db warehouse_id with
    | none => .error .transactionsWarehouseNotFound
    | some _warehouse =>
      let brand_product_ids : Option (List String) :=
        if brandActive brand then some (brandProductIds db ((brand).getD ""))
        else none
      match brand_product_ids with
      | some [] => .ok { items := [], total := 0, page := page, page_size := page_size }
      | pids =>
        let base : List Txn :=
          db.transactions.filter (fun t => involvesWarehouse t warehouse_id)
        let typed : List Txn :=
          match transaction_type with
          | some ty => base.filter (fun t => decide (t.transaction_type = ty))
          | none => base
        let filtered : List Txn :=
          match pids with
          | some ids => typed.filter (fun t => ids.contains t.product_id)
          | none => typed
        let offset := (page - 1) * page_size
        let pageItems := ((filtered.reverse).drop offset).take page_size
        .ok { items := pageItems.map (fun t =>
                { txn := t
                  product := findProduct db t.product_id
                  from_warehouse := (t.from_warehouse_id).bind (fun w => findWarehouse db w)
                  to_warehouse := (t.to_warehouse_id).bind (fun w => findWarehouse db w) })
              total := filtered.length
              page := page
              page_size := page_size }

/-- One invocation of a Mutation Operation, with the requests that reach
the handlers (`transferPartial` is a transfer hit by a storage failure
after the given number of successful writes). -/
inductive Op where
  | sale (user : UserContext) (r : SaleRequest)
  | purchase (user : UserContext) (r : PurchaseRequest)
  | transfer (user : UserContext) (r : TransferRequest)
  | transferPartial (user : UserContext) (r : TransferRequest) (okWrites : Nat)
  | adjustment (a : AdjustmentItem)
deriving DecidableEq, Repr

/-- Request validity enforced before the handlers run: pydantic's
`quantity > 0` (`gt=0`) for Sale/Purchase/Transfer, and the `qty > 0`
filter of `parse_csv` for Adjustment rows. -/
def Op.valid : Op → Prop
  | .sale _ r => 0 < r.quantity
  | .purchase _ r => 0 < r.quantity
  | .transfer _ r => 0 < r.quantity
  | .transferPartial _ r _ => 0 < r.quantity
  | .adjustment a => 0 < a.quantity

/-- The store visible after the operation: the new store on success, the
unchanged store on a rejection, the partial store on an injected
mid-transfer failure. -/
def Op.apply : Op → DB → DB
  | .sale u r, db =>
    match record_sale db u r with
    | .ok (db', _) => db'
    | .error _ => db
  | .purchase u r, db =>
    match record_purchase db u r with
    | .ok (db', _) => db'
    | .error _ => db
  | .transfer u r, db =>
    match create_transfer db u r with
    | .ok (db', _) => db'
    | .error _ => db
  | .transferPartial u r k, db => (create_transfer_upto db u r k).1
  | .adjustment a, db => apply_adjustment db a

/-- Fold a sequence of operations over the store. -/
def applySeq (db : DB) (ops : List Op) : DB :=
  ops.foldl (fun d op => Op.apply op d) db

/-- The non-negativity invariant over the whole stock ledger. -/
def InvNonneg (db : DB) : Prop :=
  ∀ it ∈ db.inventory_items, 0 ≤ it.quantity_on_hand

instance (db : DB) : Decidable (InvNonneg db) := by
  unfold InvNonneg; infer_instance

instance : DecidablePred Op.valid := fun op =>
  match op with
  | .sale _ r => inferInstanceAs (Decidable (0 < r.quantity))
  | .purchase _ r => inferInstanceAs (Decidable (0 < r.quantity))
  | .transfer _ r => inferInstanceAs (Decidable (0 < r.quantity))
  | .transferPartial _ r _ => inferInstanceAs (Decidable (0 < r.quantity))
  | .adjustment a => inferInstanceAs (Decidable (0 < a.quantity))

/-! ### Concrete fixtures (used only by closed witness and
counterexample theorems) -/

def productP : Product :=
  { id := "P", sku := "SKU-1", name := "Widget", brand := "Acme",
    retail_price := some 8, wholesale_price := some 6, cost_price := some 5 }

def warehouseW1 : Warehouse := { id := "W1", name := "Main Warehouse", manager_id := none }

def warehouseW2 : Warehouse := { id := "W2", name := "East Warehouse", manager_id := some "V" }

def itemW1P : InventoryItem := { warehouse_id := "W1", product_id := "P", quantity_on_hand := 10 }

def dbW : DB :=
  { warehouses := [warehouseW1, warehouseW2]
    products := [productP]
    inventory_items := [itemW1P]
    transactions := [] }

def dbLow : DB :=
  { warehouses := [warehouseW1, warehouseW2]
    products := [productP]
    inventory_items := [{ warehouse_id := "W1", product_id := "P", quantity_on_hand := 4 }]
    transactions := [] }

def dbFive : DB :=
  { warehouses := [warehouseW1, warehouseW2]
    products := [productP]
    inventory_items := [{ warehouse_id := "W1", product_id := "P", quantity_on_hand := 5 }]
    transactions := [] }

def adminU : UserContext := { user_id := "U", role := "admin", warehouse_id := none }

def partnerW1 : UserContext := { user_id := "V", role := "partner", warehouse_id := some "W1" }

def saleReq3 : SaleRequest :=
  { warehouse_id := "W1", product_id := "P", quantity := 3,
    unit_price := none, reference_note := none }

def saleReqCheap : SaleRequest :=
  { warehouse_id := "W1", product_id := "P", quantity := 3,
    unit_price := some 4, reference_note := none }

def saleReqW2 : SaleRequest :=
  { warehouse_id := "W2", product_id := "P", quantity := 1,
    unit_price := none, reference_note := none }

def saleReqBig : SaleRequest :=
  { warehouse_id := "W1", product_id := "P", quantity := 99,
    unit_price := none, reference_note := none }

def purchaseReqW2 : PurchaseRequest :=
  { warehouse_id := "W2", product_id := "P", quantity := 20,
    unit_cost := none, reference_note := none }

def transferReq4 : TransferRequest :=
  { from_warehouse_id := "W1", to_warehouse_id := "W2", product_id := "P",
    quantity := 4, reference_note := none }

def transferReqBig : TransferRequest :=
  { from_warehouse_id := "W1", to_warehouse_id := "W2", product_id := "P",
    quantity := 99, reference_note := none }

def transferSelf : TransferRequest :=
  { from_warehouse_id := "W1", to_warehouse_id := "W1", product_id := "P",
    quantity := 4, reference_note := none }

def opsW : List Op :=
  [.sale partnerW1 saleReq3,
   .purchase adminU purchaseReqW2,
   .transfer adminU transferReq4,
   .transferPartial adminU transferReq4 1,
   .adjustment { warehouse_id := "W1", product_id := "P", quantity := 5, reference_note := none }]

/-- The successful result of the fixture transfer, for closed statements
about it. -/
def transferPairW : DB × TransferResponse :=
  (create_transfer dbW adminU transferReq4).toOption.getD
    (dbW, { from_warehouse_id := "", to_warehouse_id := "", product_id := "", quantity := 0 })

/-! ### Basic lemmas about the store primitives -/

theorem keyMatches_iff (it : InventoryItem) (w p : String) :
    keyMatches it w p = true ↔ it.warehouse_id = w ∧ it.product_id = p := by
  simp [keyMatches]

theorem keyMatches_setQty (it : InventoryItem) (w' p' : String) (q : Int) :
    keyMatches { it with quantity_on_hand := q } w' p' = keyMatches it w' p' := rfl

theorem keyMatches_eq_false (it : InventoryItem) (w p : String)
    (h : ¬(it.warehouse_id = w ∧ it.product_id = p)) : keyMatches it w p = false := by
  cases hkm : keyMatches it w p
  · rfl
  · exact absurd ((keyMatches_iff it w p).mp hkm) h

/-- `find?` over a one-element extension of the list. -/
theorem find?_append_single (l : List InventoryItem) (x : InventoryItem)
    (pred : InventoryItem → Bool) :
    (l ++ [x]).find? pred
      = match l.find? pred with
        | some a => some a
        | none => if pred x then some x else none := by
  induction l with
  | nil => by_cases h : pred x <;> simp [List.find?, h]
  | cons a tl ih =>
    by_cases h : pred a
    · simp [List.find?, h]
    · simp only [List.cons_append, List.find?, h, Bool.false_eq_true, if_false]
      exact ih

/-- Rows are updated in place: looking the updated key up yields the old
row with the new quantity. -/
theorem find?_update_self (l : List InventoryItem) (w p : String) (q : Int) :
    (l.map (fun it => if keyMatches it w p then { it with quantity_on_hand := q } else it)).find?
        (fun it => keyMatches it w p)
      = (l.find? (fun it => keyMatches it w p)).map
        (fun it => { it with quantity_on_hand := q }) := by
  induction l with
  | nil => rfl
  | cons a tl ih =>
    by_cases h : keyMatches a w p
    · simp [List.find?, h, keyMatches_setQty]
    · simp only [List.map_cons, List.find?]
      rw [if_neg h]
      simp only [h, Bool.false_eq_true, if_false]
      exact ih

/-- Updating one key leaves lookups of any other key unchanged. -/
theorem find?_update_ne (l : List InventoryItem) (w p w' p' : String) (q : Int)
    (h : ¬(w' = w ∧ p' = p)) :
    (l.map (fun it => if keyMatches it w p then { it with quantity_on_hand := q } else it)).find?
        (fun it => keyMatches it w' p')
      = l.find? (fun it => keyMatches it w' p') := by
  induction l with
  | nil => rfl
  | cons a tl ih =>
    by_cases h' : keyMatches a w' p'
    · have ha : a.warehouse_id = w' ∧ a.product_id = p' := (keyMatches_iff a w' p').mp h'
      have hno : keyMatches a w p = false := by
        refine keyMatches_eq_false a w p (fun hc => h ?_)
        exact ⟨ha.1 ▸ hc.1, ha.2 ▸ hc.2⟩
      simp [List.find?, hno, h']
    · simp only [List.map_cons, List.find?]
      have hpres : keyMatches (if keyMatches a w p then { a with quantity_on_hand := q } else a) w' p'
          = keyMatches a w' p' := by
        by_cases hm : keyMatches a w p <;> simp [hm, keyMatches_setQty]
      rw [hpres]
      simp only [h', Bool.false_eq_true, if_false]
      exact ih

theorem findItem_setItemQty_self (db : DB) (w p : String) (q : Int) :
    findItem (setItemQty db w p q) w p
      = (findItem db w p).map (fun it => { it with quantity_on_hand := q }) := by
  simpa [findItem, setItemQty] using find?_update_self db.inventory_items w p q

theorem findItem_setItemQty_ne (db : DB) (w p w' p' : String) (q : Int)
    (h : ¬(w' = w ∧ p' = p)) :
    findItem (setItemQty db w p q) w' p' = findItem db w' p' := by
  simpa [findItem, setItemQty] using find?_update_ne db.inventory_items w p w' p' q h

theorem findItem_insertItem (db : DB) (w p : String) (q : Int) (w' p' : String) :
    findItem (insertItem db w p q) w' p'
      = match findItem db w' p' with
        | some it => some it
        | none => if keyMatches ⟨w, p, q⟩ w' p' then some ⟨w, p, q⟩ else none := by
  simp only [findItem, insertItem]
  exact find?_append_single db.inventory_items ⟨w, p, q⟩ (fun it => keyMatches it w' p')

theorem findItem_insertItem_self (db : DB) (w p : String) (q : Int)
    (h : findItem db w p = none) :
    findItem (insertItem db w p q) w p = some ⟨w, p, q⟩ := by
  rw [findItem_insertItem, h]
  simp [keyMatches]

theorem findItem_insertItem_ne (db : DB) (w p : String) (q : Int) (w' p' : String)
    (h : ¬(w' = w ∧ p' = p)) :
    findItem (insertItem db w p q) w' p' = findItem db w' p' := by
  rw [findItem_insertItem]
  have : keyMatches ⟨w, p, q⟩ w' p' = false := by
    refine keyMatches_eq_false _ w' p' (fun hc => h ?_)
    exact ⟨hc.1.symm, hc.2.symm⟩
  cases hf : findItem db w' p' with
  | some it => rfl
  | none => simp [this]

theorem findItem_appendTxn (db : DB) (t : Txn) (w p : String) :
    findItem (appendTxn db t) w p = findItem db w p := rfl

theorem stockOf_appendTxn (db : DB) (t : Txn) (w p : String) :
    stockOf (appendTxn db t) w p = stockOf db w p := rfl

theorem stockOf_setItemQty_self (db : DB) (w p : String) (q : Int) (it : InventoryItem)
    (h : findItem db w p = some it) :
    stockOf (setItemQty db w p q) w p = q := by
  simp [stockOf, findItem_setItemQty_self, h]

theorem stockOf_setItemQty_ne (db : DB) (w p w' p' : String) (q : Int)
    (h : ¬(w' = w ∧ p' = p)) :
    stockOf (setItemQty db w p q) w' p' = stockOf db w' p' := by
  simp [stockOf, findItem_setItemQty_ne db w p w' p' q h]

theorem stockOf_insertItem_self (db : DB) (w p : String) (q : Int)
    (h : findItem db w p = none) :
    stockOf (insertItem db w p q) w p = q := by
  simp [stockOf, findItem_insertItem_self db w p q h]

theorem stockOf_insertItem_ne (db : DB) (w p : String) (q : Int) (w' p' : String)
    (h : ¬(w' = w ∧ p' = p)) :
    stockOf (insertItem db w p q) w' p' = stockOf db w' p' := by
  simp [stockOf, findItem_insertItem_ne db w p q w' p' h]

theorem stockOf_find_some (db : DB) (w p : String) (it : InventoryItem)
    (h : findItem db w p = some it) : stockOf db w p = it.quantity_on_hand := by
  simp [stockOf, h]

theorem stockOf_find_none (db : DB) (w p : String)
    (h : findItem db w p = none) : stockOf db w p = 0 := by
  simp [stockOf, h]

theorem transactions_setItemQty (db : DB) (w p : String) (q : Int) :
    (setItemQty db w p q).transactions = db.transactions := rfl

theorem transactions_insertItem (db : DB) (w p : String) (q : Int) :
    (insertItem db w p q).transactions = db.transactions := rfl

theorem transactions_appendTxn (db : DB) (t : Txn) :
    (appendTxn db t).transactions = db.transactions ++ [t] := rfl

theorem transactions_transferDestUpsert (db : DB) (t : TransferRequest) :
    (transferDestUpsert db t).transactions = db.transactions := by
  unfold transferDestUpsert
  cases findItem db t.to_warehouse_id t.product_id <;> rfl

theorem findItem_mem (db : DB) (w p : String) (it : InventoryItem)
    (h : findItem db w p = some it) : it ∈ db.inventory_items :=
  List.mem_of_find?_eq_some h

theorem findItem_key (db : DB) (w p : String) (it : InventoryItem)
    (h : findItem db w p = some it) : it.warehouse_id = w ∧ it.product_id = p := by
  have := List.find?_some h
  exact (keyMatches_iff it w p).mp this

/-! ### Success inversion for the mutating handlers -/

/-- Any successful sale went through the stock guard and performed
exactly the decrement and the single SALE append. -/
theorem record_sale_ok_inv (db : DB) (u : UserContext) (r : SaleRequest)
    (db' : DB) (resp : SaleResponse)
    (h : record_sale db u r = .ok (db', resp)) :
    ∃ product inventory,
      findProduct db r.product_id = some product ∧
      findItem db r.warehouse_id r.product_id = some inventory ∧
      r.quantity ≤ inventory.quantity_on_hand ∧
      db' = appendTxn
        (setItemQty db r.warehouse_id r.product_id
          (inventory.quantity_on_hand - r.quantity))
        (saleTxn r u.user_id (effectivePrice r.unit_price product.retail_price)) := by
  simp only [record_sale] at h
  split at h
  · cases h
  split at h
  · cases h
  next _warehouse _hW =>
  split at h
  · cases h
  next product hP =>
  split at h
  · cases h
  split at h
  · cases h
  next inventory hI =>
  split at h
  · cases h
  next hStock =>
  simp only [Except.ok.injEq, Prod.mk.injEq] at h
  exact ⟨product, inventory, hP, hI, Int.not_lt.mp hStock, h.1.symm⟩

/-- Any successful purchase performed exactly the upsert and the single
RESTOCK append. -/
theorem record_purchase_ok_inv (db : DB) (u : UserContext) (r : PurchaseRequest)
    (db' : DB) (resp : PurchaseResponse)
    (h : record_purchase db u r = .ok (db', resp)) :
    ∃ product,
      findProduct db r.product_id = some product ∧
      ((∃ inventory,
          findItem db r.warehouse_id r.product_id = some inventory ∧
          db' = appendTxn
            (setItemQty db r.warehouse_id r.product_id
              (inventory.quantity_on_hand + r.quantity))
            (restockTxn r u.user_id (effectivePrice r.unit_cost product.cost_price)))
        ∨ (findItem db r.warehouse_id r.product_id = none ∧
          db' = appendTxn (insertItem db r.warehouse_id r.product_id r.quantity)
            (restockTxn r u.user_id (effectivePrice r.unit_cost product.cost_price)))) := by
  simp only [record_purchase] at h
  split at h
  · cases h
  split at h
  · cases h
  next _warehouse _hW =>
  split at h
  · cases h
  next product hP =>
  split at h
  next inventory hI =>
    simp only [Except.ok.injEq, Prod.mk.injEq] at h
    exact ⟨product, hP, .inl ⟨inventory, hI, h.1.symm⟩⟩
  next hI =>
    simp only [Except.ok.injEq, Prod.mk.injEq] at h
    exact ⟨product, hP, .inr ⟨hI, h.1.symm⟩⟩

/-- Any successful transfer went through the stock guard and performed
exactly the four writes, in order. -/
theorem create_transfer_ok_inv (db : DB) (u : UserContext) (t : TransferRequest)
    (db' : DB) (resp : TransferResponse)
    (h : create_transfer db u t = .ok (db', resp)) :
    ∃ source dest source_inventory,
      u.role = "admin" ∧
      findWarehouse db t.from_warehouse_id = some source ∧
      findWarehouse db t.to_warehouse_id = some dest ∧
      findItem db t.from_warehouse_id t.product_id = some source_inventory ∧
      t.quantity ≤ source_inventory.quantity_on_hand ∧
      db' = appendTxn
        (appendTxn
          (transferDestUpsert
            (setItemQty db t.from_warehouse_id t.product_id
              (source_inventory.quantity_on_hand - t.quantity)) t)
          (transferOutTxn t dest.name u.user_id))
        (transferInTxn t source.name u.user_id) := by
  simp only [create_transfer] at h
  split at h
  · cases h
  next hRole =>
  split at h
  · cases h
  next source hSrcW =>
  split at h
  · cases h
  next dest hDstW =>
  split at h
  · cases h
  next _product _hP =>
  split at h
  · cases h
  next source_inventory hI =>
  split at h
  · cases h
  next hStock =>
  simp only [Except.ok.injEq, Prod.mk.injEq] at h
  refine ⟨source, dest, source_inventory, ?_, hSrcW, hDstW, hI,
    Int.not_lt.mp hStock, h.1.symm⟩
  simpa [String.ext_iff] using hRole

/-! ### Preservation of the non-negativity invariant by the primitives -/

theorem invNonneg_setItemQty (db : DB) (w p : String) (q : Int)
    (hinv : InvNonneg db) (hq : 0 ≤ q) : InvNonneg (setItemQty db w p q) := by
  intro it hit
  simp only [setItemQty, List.mem_map] at hit
  obtain ⟨a, ha, rfl⟩ := hit
  by_cases h : keyMatches a w p
  · simpa [h] using hq
  · simpa [h] using hinv a ha

theorem invNonneg_insertItem (db : DB) (w p : String) (q : Int)
    (hinv : InvNonneg db) (hq : 0 ≤ q) : InvNonneg (insertItem db w p q) := by
  intro it hit
  simp only [insertItem, List.mem_append, List.mem_singleton] at hit
  rcases hit with h | rfl
  · exact hinv it h
  · exact hq

theorem invNonneg_appendTxn (db : DB) (t : Txn)
    (hinv : InvNonneg db) : InvNonneg (appendTxn db t) := hinv

theorem invNonneg_transferDestUpsert (db : DB) (t : TransferRequest)
    (hinv : InvNonneg db) (hq : 0 ≤ t.quantity) : InvNonneg (transferDestUpsert db t) := by
  unfold transferDestUpsert
  cases hd : findItem db t.to_warehouse_id t.product_id with
  | some d =>
    have hd0 : 0 ≤ d.quantity_on_hand := hinv d (findItem_mem db _ _ d hd)
    exact invNonneg_setItemQty db _ _ _ hinv (by omega)
  | none => exact invNonneg_insertItem db _ _ _ hinv hq

/-! ### Characterization of the access-check rejections -/

theorem record_sale_forbidden_of (db : DB) (u : UserContext) (r : SaleRequest)
    (h1 : ¬u.role = "admin") (h2 : ¬u.warehouse_id = some r.warehouse_id) :
    record_sale db u r = .error .saleForbidden := by
  simp [record_sale, h1, h2]

theorem record_sale_forbidden_cond (db : DB) (u : UserContext) (r : SaleRequest)
    (h : record_sale db u r = .error .saleForbidden) :
    ¬u.role = "admin" ∧ ¬u.warehouse_id = some r.warehouse_id := by
  by_contra hc
  rw [Decidable.not_and_iff_or_not, Decidable.not_not, Decidable.not_not] at hc
  have hcond : (u.role != "admin" && u.warehouse_id != some r.warehouse_id) = false := by
    rcases hc with h' | h' <;> simp [h']
  simp only [record_sale, hcond, Bool.false_eq_true, if_false] at h
  split at h
  · simp at h
  split at h
  · simp at h
  split at h
  · simp at h
  split at h
  · simp at h
  split at h
  · simp at h
  exact (by simp at h)

theorem inventory_forbidden_of (db : DB) (u : UserContext) (wid : String)
    (page page_size : Nat) (search : Option String)
    (h1 : ¬u.role = "admin") (h2 : ¬u.warehouse_id = some wid) :
    get_warehouse_inventory db u wid page page_size search = .error .inventoryForbidden := by
  simp [get_warehouse_inventory, h1, h2]

theorem inventory_forbidden_cond (db : DB) (u : UserContext) (wid : String)
    (page page_size : Nat) (search : Option String)
    (h : get_warehouse_inventory db u wid page page_size search = .error .inventoryForbidden) :
    ¬u.role = "admin" ∧ ¬u.warehouse_id = some wid := by
  by_contra hc
  rw [Decidable.not_and_iff_or_not, Decidable.not_not, Decidable.not_not] at hc
  have hcond : (u.role != "admin" && u.warehouse_id != some wid) = false := by
    rcases hc with h' | h' <;> simp [h']
  simp only [get_warehouse_inventory, hcond, Bool.false_eq_true, if_false] at h
  split at h
  · simp at h
  split at h
  · simp at h
  exact (by simp at h)

theorem transactions_listing_forbidden_of (db : DB) (u : UserContext) (wid : String)
    (ttype : Option TransactionType) (brand : Option String) (page page_size : Nat)
    (h1 : ¬u.role = "admin") (h2 : ¬u.warehouse_id = some wid) :
    get_warehouse_transactions db u wid ttype brand page page_size
      = .error .transactionsForbidden := by
  simp [get_warehouse_transactions, h1, h2]

theorem transactions_listing_forbidden_cond (db : DB) (u : UserContext) (wid : String)
    (ttype : Option TransactionType) (brand : Option String) (page page_size : Nat)
    (h : get_warehouse_transactions db u wid ttype brand page page_size
      = .error .transactionsForbidden) :
    ¬u.role = "admin" ∧ ¬u.warehouse_id = some wid := by
  by_contra hc
  rw [Decidable.not_and_iff_or_not, Decidable.not_not, Decidable.not_not] at hc
  have hcond : (u.role != "admin" && u.warehouse_id != some wid) = false := by
    rcases hc with h' | h' <;> simp [h']
  simp only [get_warehouse_transactions, hcond, Bool.false_eq_true, if_false] at h
  split at h
  · simp at h
  split at h
  · simp at h
  exact (by simp at h)

/-! ### Per-operation preservation of non-negativity -/

theorem invNonneg_transfer_upto (db : DB) (u : UserContext) (t : TransferRequest)
    (k : Nat) (hq : 0 < t.quantity) (hinv : InvNonneg db) :
    InvNonneg (create_transfer_upto db u t k).1 := by
  simp only [create_transfer_upto]
  split
  · exact hinv
  split
  · exact hinv
  next source _hSrcW =>
  split
  · exact hinv
  next dest _hDstW =>
  split
  · exact hinv
  next _product _hP =>
  split
  · exact hinv
  next source_inventory _hI =>
  split
  · exact hinv
  next hStock =>
  have hle : t.quantity ≤ source_inventory.quantity_on_hand := Int.not_lt.mp hStock
  have h1 : InvNonneg (setItemQty db t.from_warehouse_id t.product_id
      (source_inventory.quantity_on_hand - t.quantity)) :=
    invNonneg_setItemQty db _ _ _ hinv (by omega)
  have h2 : InvNonneg (transferDestUpsert
      (setItemQty db t.from_warehouse_id t.product_id
        (source_inventory.quantity_on_hand - t.quantity)) t) :=
    invNonneg_transferDestUpsert _ t h1 (by omega)
  split
  · exact hinv
  split
  · exact h1
  split
  · exact h2
  split
  · exact invNonneg_appendTxn _ _ h2
  · exact invNonneg_appendTxn _ _ (invNonneg_appendTxn _ _ h2)

theorem invNonneg_apply_adjustment (db : DB) (a : AdjustmentItem)
    (hq : 0 < a.quantity) (hinv : InvNonneg db) :
    InvNonneg (apply_adjustment db a) := by
  unfold apply_adjustment
  cases hI : findItem db a.warehouse_id a.product_id with
  | some inventory =>
    have h0 : 0 ≤ inventory.quantity_on_hand := hinv _ (findItem_mem db _ _ _ hI)
    exact invNonneg_appendTxn _ _ (invNonneg_setItemQty db _ _ _ hinv (by omega))
  | none =>
    exact invNonneg_appendTxn _ _ (invNonneg_insertItem db _ _ _ hinv (by omega))

/-- A single valid Mutation Operation — including a transfer cut short by
a storage failure — keeps every ledger quantity non-negative. -/
theorem invNonneg_op_apply (op : Op) (db : DB)
    (hv : op.valid) (hinv : InvNonneg db) : InvNonneg (op.apply db) := by
  cases op with
  | sale u r =>
    simp only [Op.apply]
    cases hrs : record_sale db u r with
    | error e => exact hinv
    | ok pr =>
      obtain ⟨db', resp⟩ := pr
      obtain ⟨product, inventory, _hP, _hI, hle, hdb⟩ :=
        record_sale_ok_inv db u r db' resp hrs
      rw [hdb]
      exact invNonneg_appendTxn _ _ (invNonneg_setItemQty db _ _ _ hinv (by omega))
  | purchase u r =>
    simp only [Op.valid] at hv
    simp only [Op.apply]
    cases hrs : record_purchase db u r with
    | error e => exact hinv
    | ok pr =>
      obtain ⟨db', resp⟩ := pr
      obtain ⟨product, _hP, hcase⟩ := record_purchase_ok_inv db u r db' resp hrs
      rcases hcase with ⟨inventory, hI, hdb⟩ | ⟨_hI, hdb⟩
      · have h0 : 0 ≤ inventory.quantity_on_hand := hinv _ (findItem_mem db _ _ _ hI)
        rw [hdb]
        exact invNonneg_appendTxn _ _ (invNonneg_setItemQty db _ _ _ hinv (by omega))
      · rw [hdb]
        exact invNonneg_appendTxn _ _ (invNonneg_insertItem db _ _ _ hinv (by omega))
  | transfer u r =>
    simp only [Op.valid] at hv
    simp only [Op.apply]
    cases hrs : create_transfer db u r with
    | error e => exact hinv
    | ok pr =>
      obtain ⟨db', resp⟩ := pr
      obtain ⟨source, dest, source_inventory, _hRole, _hSrcW, _hDstW, _hI, hle, hdb⟩ :=
        create_transfer_ok_inv db u r db' resp hrs
      have h1 : InvNonneg (setItemQty db r.from_warehouse_id r.product_id
          (source_inventory.quantity_on_hand - r.quantity)) :=
        invNonneg_setItemQty db _ _ _ hinv (by omega)
      rw [hdb]
      exact invNonneg_appendTxn _ _ (invNonneg_appendTxn _ _
        (invNonneg_transferDestUpsert _ r h1 (by omega)))
  | transferPartial u r k =>
    simp only [Op.valid] at hv
    exact invNonneg_transfer_upto db u r k hv hinv
  | adjustment a =>
    simp only [Op.valid] at hv
    exact invNonneg_apply_adjustment db a hv hinv

/-! ### Claim theorems -/

/-- C1: Non-negativity invariant — starting from any store in which
every ledger quantity is ≥ 0, after any sequence of Mutation Operations
(Sale, Purchase, Transfer — whether it completes or is cut short by a
storage failure — and Adjustment) with the positive request quantities
the input layer enforces, every quantity is still ≥ 0: no operation ever
writes a negative quantity. -/
theorem C1_nonneg_invariant (db : DB) (ops : List Op)
    (hops : ∀ op ∈ ops, op.valid) (hinv : InvNonneg db) :
    InvNonneg (applySeq db ops) := by
  induction ops generalizing db with
  | nil => exact hinv
  | cons op tl ih =>
    exact ih (op.apply db) (fun o ho => hops o (List.mem_cons_of_mem _ ho))
      (invNonneg_op_apply op db (hops op (List.mem_cons_self _ _)) hinv)

theorem C1_nonneg_invariant_witness :
    (∀ op ∈ opsW, op.valid) ∧ InvNonneg dbW ∧ InvNonneg (applySeq dbW opsW) :=
  ⟨by decide, by decide, C1_nonneg_invariant dbW opsW (by decide) (by decide)⟩

/-- C4: Sale success postcondition — with access granted, warehouse and
product present, a ledger row for the pair, the margin guard passing and
sufficient stock, the sale decrements the row to current − quantity,
appends exactly one SALE transaction (from the warehouse, to null, the
requested quantity, the effective price) and returns the new stock level
and the effective price. -/
theorem C4_sale_postcondition (db : DB) (user : UserContext) (r : SaleRequest)
    (warehouse : Warehouse) (product : Product) (inventory : InventoryItem)
    (_hq : 0 < r.quantity)
    (hacc : user.role = "admin" ∨ user.warehouse_id = some r.warehouse_id)
    (hW : findWarehouse db r.warehouse_id = some warehouse)
    (hP : findProduct db r.product_id = some product)
    (hmargin : marginViolated (effectivePrice r.unit_price product.retail_price)
        product.cost_price = false)
    (hI : findItem db r.warehouse_id r.product_id = some inventory)
    (hstock : r.quantity ≤ inventory.quantity_on_hand) :
    record_sale db user r = .ok
      (appendTxn
        (setItemQty db r.warehouse_id r.product_id
          (inventory.quantity_on_hand - r.quantity))
        (saleTxn r user.user_id (effectivePrice r.unit_price product.retail_price)),
       { warehouse_id := r.warehouse_id
         product_id := r.product_id
         quantity := r.quantity
         unit_price := effectivePrice r.unit_price product.retail_price
         new_stock_level := inventory.quantity_on_hand - r.quantity })
    ∧ (appendTxn
        (setItemQty db r.warehouse_id r.product_id
          (inventory.quantity_on_hand - r.quantity))
        (saleTxn r user.user_id (effectivePrice r.unit_price product.retail_price))).transactions
      = db.transactions
        ++ [saleTxn r user.user_id (effectivePrice r.unit_price product.retail_price)]
    ∧ stockOf
        (appendTxn
          (setItemQty db r.warehouse_id r.product_id
            (inventory.quantity_on_hand - r.quantity))
          (saleTxn r user.user_id (effectivePrice r.unit_price product.retail_price)))
        r.warehouse_id r.product_id
      = inventory.quantity_on_hand - r.quantity := by
  have hcond : (user.role != "admin" && user.warehouse_id != some r.warehouse_id) = false := by
    rcases hacc with h | h <;> simp [h]
  refine ⟨?_, rfl, ?_⟩
  · simp [record_sale, hcond, hW, hP, hmargin, hI, Int.not_lt.mpr hstock]
  · rw [stockOf_appendTxn]
    exact stockOf_setItemQty_self db _ _ _ inventory hI

theorem C4_sale_postcondition_witness :
    record_sale dbW partnerW1 saleReq3 = .ok
      (appendTxn
        (setItemQty dbW saleReq3.warehouse_id saleReq3.product_id
          (itemW1P.quantity_on_hand - saleReq3.quantity))
        (saleTxn saleReq3 partnerW1.user_id
          (effectivePrice saleReq3.unit_price productP.retail_price)),
       { warehouse_id := saleReq3.warehouse_id
         product_id := saleReq3.product_id
         quantity := saleReq3.quantity
         unit_price := effectivePrice saleReq3.unit_price productP.retail_price
         new_stock_level := itemW1P.quantity_on_hand - saleReq3.quantity })
    ∧ (appendTxn
        (setItemQty dbW saleReq3.warehouse_id saleReq3.product_id
          (itemW1P.quantity_on_hand - saleReq3.quantity))
        (saleTxn saleReq3 partnerW1.user_id
          (effectivePrice saleReq3.unit_price productP.retail_price))).transactions
      = dbW.transactions
        ++ [saleTxn saleReq3 partnerW1.user_id
            (effectivePrice saleReq3.unit_price productP.retail_price)]
    ∧ stockOf
        (appendTxn
          (setItemQty dbW saleReq3.warehouse_id saleReq3.product_id
            (itemW1P.quantity_on_hand - saleReq3.quantity))
          (saleTxn saleReq3 partnerW1.user_id
            (effectivePrice saleReq3.unit_price productP.retail_price)))
        saleReq3.warehouse_id saleReq3.product_id
      = itemW1P.quantity_on_hand - saleReq3.quantity :=
  C4_sale_postcondition dbW partnerW1 saleReq3 warehouseW1 productP itemW1P
    (by decide) (Or.inr (by decide)) (by decide) (by decide) (by decide)
    (by decide) (by decide)

/-- C5: Margin floor — with access granted and warehouse/product
resolved, a sale whose effective price and cost price are both known with
effective price < cost price is rejected with the 400 price-below-cost
error for every caller; when either price is unknown the margin guard
never fires. -/
theorem C5_margin_floor (db : DB) (user : UserContext) (r : SaleRequest)
    (product : Product)
    (hP : findProduct db r.product_id = some product) :
    (∀ warehouse fp cp,
      (user.role = "admin" ∨ user.warehouse_id = some r.warehouse_id) →
      findWarehouse db r.warehouse_id = some warehouse →
      effectivePrice r.unit_price product.retail_price = some fp →
      product.cost_price = some cp →
      fp < cp →
      record_sale db user r = .error .salePriceBelowCost)
    ∧ (effectivePrice r.unit_price product.retail_price = none
        ∨ product.cost_price = none →
      record_sale db user r ≠ .error .salePriceBelowCost)
    ∧ Err.httpStatus .salePriceBelowCost = 400 := by
  refine ⟨?_, ?_, rfl⟩
  · intro warehouse fp cp hacc hW heff hcp hlt
    have hcond : (user.role != "admin" && user.warehouse_id != some r.warehouse_id) = false := by
      rcases hacc with h | h <;> simp [h]
    have hm : marginViolated (effectivePrice r.unit_price product.retail_price)
        product.cost_price = true := by
      rw [heff, hcp]
      simpa [marginViolated] using hlt
    simp [record_sale, hcond, hW, hP, hm]
  · intro hnull h
    have hm : marginViolated (effectivePrice r.unit_price product.retail_price)
        product.cost_price = false := by
      rcases hnull with h' | h' <;> simp [marginViolated, h']
    simp only [record_sale] at h
    split at h
    · simp at h
    split at h
    · simp at h
    split at h
    · simp at h
    next product' hP' =>
    rw [hP] at hP'
    cases hP'
    split at h
    next hm' => rw [hm] at hm'; cases hm'
    split at h
    · simp at h
    split at h
    · simp at h
    simp at h

/-- C2: Conservation under transfer — every succeeding transfer between
distinct warehouses preserves the summed stock of the two warehouses for
the product (an absent destination row counting as 0) and appends
exactly two transactions, a TRANSFER_OUT and a TRANSFER_IN, both with
the transferred quantity and both carrying the same source/destination
pair. -/
theorem C2_transfer_conservation (db : DB) (user : UserContext) (t : TransferRequest)
    (db' : DB) (resp : TransferResponse)
    (hok : create_transfer db user t = .ok (db', resp))
    (hne : t.from_warehouse_id ≠ t.to_warehouse_id) :
    stockOf db' t.from_warehouse_id t.product_id
        + stockOf db' t.to_warehouse_id t.product_id
      = stockOf db t.from_warehouse_id t.product_id
        + stockOf db t.to_warehouse_id t.product_id
    ∧ ∃ outT inT,
        db'.transactions = db.transactions ++ [outT, inT]
        ∧ outT.transaction_type = .TRANSFER_OUT
        ∧ inT.transaction_type = .TRANSFER_IN
        ∧ outT.quantity = t.quantity
        ∧ inT.quantity = t.quantity
        ∧ outT.from_warehouse_id = some t.from_warehouse_id
        ∧ outT.to_warehouse_id = some t.to_warehouse_id
        ∧ inT.from_warehouse_id = some t.from_warehouse_id
        ∧ inT.to_warehouse_id = some t.to_warehouse_id := by
  obtain ⟨source, dest, src_inv, _hRole, _hSrcW, _hDstW, hI, _hle, hdb⟩ :=
    create_transfer_ok_inv db user t db' resp hok
  subst hdb
  have hA : ¬(t.from_warehouse_id = t.to_warehouse_id ∧ t.product_id = t.product_id) :=
    fun hc => hne hc.1
  have hB : ¬(t.to_warehouse_id = t.from_warehouse_id ∧ t.product_id = t.product_id) :=
    fun hc => hne hc.1.symm
  constructor
  · rw [stockOf_appendTxn, stockOf_appendTxn, stockOf_appendTxn, stockOf_appendTxn]
    have hfindB : findItem
        (setItemQty db t.from_warehouse_id t.product_id
          (src_inv.quantity_on_hand - t.quantity))
        t.to_warehouse_id t.product_id
      = findItem db t.to_warehouse_id t.product_id :=
      findItem_setItemQty_ne db _ _ _ _ _ hB
    unfold transferDestUpsert
    cases hd : findItem
        (setItemQty db t.from_warehouse_id t.product_id
          (src_inv.quantity_on_hand - t.quantity))
        t.to_warehouse_id t.product_id with
    | some d =>
      rw [stockOf_setItemQty_ne _ _ _ _ _ _ hA,
        stockOf_setItemQty_self _ _ _ _ _ hI,
        stockOf_setItemQty_self _ _ _ _ d hd,
        stockOf_find_some db _ _ _ hI,
        stockOf_find_some db _ _ d (hfindB ▸ hd)]
      omega
    | none =>
      rw [stockOf_insertItem_ne _ _ _ _ _ _ hA,
        stockOf_setItemQty_self _ _ _ _ _ hI,
        stockOf_insertItem_self _ _ _ _ hd,
        stockOf_find_some db _ _ _ hI,
        stockOf_find_none db _ _ (hfindB ▸ hd)]
      omega
  · refine ⟨transferOutTxn t dest.name user.user_id,
      transferInTxn t source.name user.user_id,
      ?_, rfl, rfl, rfl, rfl, rfl, rfl, rfl, rfl⟩
    simp [transactions_appendTxn, transactions_transferDestUpsert,
      transactions_setItemQty]

theorem C2_transfer_conservation_witness :
    stockOf transferPairW.1 transferReq4.from_warehouse_id transferReq4.product_id
        + stockOf transferPairW.1 transferReq4.to_warehouse_id transferReq4.product_id
      = stockOf dbW transferReq4.from_warehouse_id transferReq4.product_id
        + stockOf dbW transferReq4.to_warehouse_id transferReq4.product_id
    ∧ ∃ outT inT,
        transferPairW.1.transactions = dbW.transactions ++ [outT, inT]
        ∧ outT.transaction_type = .TRANSFER_OUT
        ∧ inT.transaction_type = .TRANSFER_IN
        ∧ outT.quantity = transferReq4.quantity
        ∧ inT.quantity = transferReq4.quantity
        ∧ outT.from_warehouse_id = some transferReq4.from_warehouse_id
        ∧ outT.to_warehouse_id = some transferReq4.to_warehouse_id
        ∧ inT.from_warehouse_id = some transferReq4.from_warehouse_id
        ∧ inT.to_warehouse_id = some transferReq4.to_warehouse_id :=
  C2_transfer_conservation dbW adminU transferReq4 transferPairW.1 transferPairW.2
    rfl (by decide)

/-- C3 counterexample: on the fixture store, a transfer whose first
write (the source decrement) succeeds and whose second write fails
leaves the source decremented (6 instead of 10), the destination not
incremented and nothing appended — the writes are not all-or-nothing. -/
theorem C3_counterexample :
    (create_transfer_upto dbW adminU transferReq4 1).2 = .error .storageFailure
    ∧ stockOf (create_transfer_upto dbW adminU transferReq4 1).1 "W1" "P" = 6
    ∧ stockOf dbW "W1" "P" = 10
    ∧ stockOf (create_transfer_upto dbW adminU transferReq4 1).1 "W2" "P" = 0
    ∧ stockOf dbW "W2" "P" = 0
    ∧ (create_transfer_upto dbW adminU transferReq4 1).1.transactions = [] :=
  ⟨rfl, by decide, by decide, by decide, by decide, rfl⟩

/-- C3 amended: the transfer's four writes are sequential with no
rollback. A failure before the first write leaves the store unchanged,
but a failure after the source decrement leaves the already-performed
writes visible: failing at the destination upsert leaves the source
decremented, the destination unchanged and no transaction appended,
surfaced as a 500. -/
theorem C3_transfer_partial_failure (db : DB) (user : UserContext) (t : TransferRequest)
    (source dest : Warehouse) (product : Product) (src_inv : InventoryItem)
    (hRole : user.role = "admin")
    (hSrcW : findWarehouse db t.from_warehouse_id = some source)
    (hDstW : findWarehouse db t.to_warehouse_id = some dest)
    (hP : findProduct db t.product_id = some product)
    (hI : findItem db t.from_warehouse_id t.product_id = some src_inv)
    (hstock : t.quantity ≤ src_inv.quantity_on_hand) :
    ((create_transfer_upto db user t 0).1 = db
      ∧ (create_transfer_upto db user t 0).2 = .error .storageFailure)
    ∧ ((create_transfer_upto db user t 1).1
          = setItemQty db t.from_warehouse_id t.product_id
              (src_inv.quantity_on_hand - t.quantity)
      ∧ (create_transfer_upto db user t 1).2 = .error .storageFailure)
    ∧ (create_transfer_upto db user t 1).1.transactions = db.transactions
    ∧ (t.from_warehouse_id ≠ t.to_warehouse_id →
        stockOf (create_transfer_upto db user t 1).1 t.from_warehouse_id t.product_id
          = src_inv.quantity_on_hand - t.quantity
        ∧ stockOf (create_transfer_upto db user t 1).1 t.to_warehouse_id t.product_id
          = stockOf db t.to_warehouse_id t.product_id)
    ∧ Err.httpStatus .storageFailure = 500 := by
  have hcond : (user.role != "admin") = false := by simp [hRole]
  have h0 : create_transfer_upto db user t 0 = (db, .error .storageFailure) := by
    simp [create_transfer_upto, hcond, hSrcW, hDstW, hP, hI, Int.not_lt.mpr hstock]
  have h1 : create_transfer_upto db user t 1
      = (setItemQty db t.from_warehouse_id t.product_id
          (src_inv.quantity_on_hand - t.quantity), .error .storageFailure) := by
    simp [create_transfer_upto, hcond, hSrcW, hDstW, hP, hI, Int.not_lt.mpr hstock]
  refine ⟨⟨by rw [h0], by rw [h0]⟩, ⟨by rw [h1], by rw [h1]⟩,
    by rw [h1]; exact transactions_setItemQty db _ _ _,
    fun hne => ⟨?_, ?_⟩, rfl⟩
  · rw [h1]
    exact stockOf_setItemQty_self db _ _ _ _ hI
  · rw [h1]
    exact stockOf_setItemQty_ne db _ _ _ _ _ (fun hc => hne hc.1.symm)

theorem C3_transfer_partial_failure_witness :
    (create_transfer_upto dbW adminU transferReq4 1).1
      = setItemQty dbW transferReq4.from_warehouse_id transferReq4.product_id
          (itemW1P.quantity_on_hand - transferReq4.quantity) :=
  (C3_transfer_partial_failure dbW adminU transferReq4 warehouseW1 warehouseW2
    productP itemW1P rfl (by decide) (by decide) (by decide) (by decide)
    (by decide)).2.1.1

theorem C5_margin_floor_witness :
    record_sale dbW partnerW1 saleReqCheap = .error .salePriceBelowCost :=
  (C5_margin_floor dbW partnerW1 saleReqCheap productP (by decide)).1
    warehouseW1 4 5 (Or.inr (by decide)) (by decide) (by decide) (by decide)
    (by norm_num)

/-- C6: Insufficient-stock rejection is side-effect free — a sale or a
transfer that reaches the stock guard and requests more than the
(source) row's quantity_on_hand is rejected with the 400
insufficient-stock error, and the visible store (every quantity and the
transaction log) is exactly the one before the call; for the transfer
this holds for every failure-injection point, since the guard precedes
all writes. -/
theorem C6_insufficient_stock_rejection (db : DB) (user : UserContext)
    (r : SaleRequest) (t : TransferRequest) :
    (∀ warehouse product inventory,
      (user.role = "admin" ∨ user.warehouse_id = some r.warehouse_id) →
      findWarehouse db r.warehouse_id = some warehouse →
      findProduct db r.product_id = some product →
      marginViolated (effectivePrice r.unit_price product.retail_price)
          product.cost_price = false →
      findItem db r.warehouse_id r.product_id = some inventory →
      inventory.quantity_on_hand < r.quantity →
      record_sale db user r = .error .saleInsufficientStock
        ∧ Op.apply (.sale user r) db = db)
    ∧ (∀ source dest product src_inv,
      user.role = "admin" →
      findWarehouse db t.from_warehouse_id = some source →
      findWarehouse db t.to_warehouse_id = some dest →
      findProduct db t.product_id = some product →
      findItem db t.from_warehouse_id t.product_id = some src_inv →
      src_inv.quantity_on_hand < t.quantity →
      create_transfer db user t = .error .transferInsufficientStock
        ∧ Op.apply (.transfer user t) db = db
        ∧ ∀ k, (create_transfer_upto db user t k).1 = db)
    ∧ Err.httpStatus .saleInsufficientStock = 400
    ∧ Err.httpStatus .transferInsufficientStock = 400 := by
  refine ⟨?_, ?_, rfl, rfl⟩
  · intro warehouse product inventory hacc hW hP hm hI hlt
    have hcond : (user.role != "admin" && user.warehouse_id != some r.warehouse_id) = false := by
      rcases hacc with h | h <;> simp [h]
    have herr : record_sale db user r = .error .saleInsufficientStock := by
      simp [record_sale, hcond, hW, hP, hm, hI, hlt]
    exact ⟨herr, by simp [Op.apply, herr]⟩
  · intro source dest product src_inv hRole hSrcW hDstW hP hI hlt
    have hcond : (user.role != "admin") = false := by simp [hRole]
    have herr : create_transfer db user t = .error .transferInsufficientStock := by
      simp [create_transfer, hcond, hSrcW, hDstW, hP, hI, hlt]
    refine ⟨herr, by simp [Op.apply, herr], fun k => ?_⟩
    simp [create_transfer_upto, hcond, hSrcW, hDstW, hP, hI, hlt]

theorem C6_insufficient_stock_rejection_witness :
    record_sale dbW partnerW1 saleReqBig = .error .saleInsufficientStock
    ∧ Op.apply (.sale partnerW1 saleReqBig) dbW = dbW
    ∧ create_transfer dbW adminU transferReqBig = .error .transferInsufficientStock
    ∧ (create_transfer_upto dbW adminU transferReqBig 2).1 = dbW :=
  ⟨((C6_insufficient_stock_rejection dbW partnerW1 saleReqBig transferReqBig).1
      warehouseW1 productP itemW1P (Or.inr (by decide)) (by decide) (by decide)
      (by decide) (by decide) (by decide)).1,
   ((C6_insufficient_stock_rejection dbW partnerW1 saleReqBig transferReqBig).1
      warehouseW1 productP itemW1P (Or.inr (by decide)) (by decide) (by decide)
      (by decide) (by decide) (by decide)).2,
   ((C6_insufficient_stock_rejection dbW adminU saleReqBig transferReqBig).2.1
      warehouseW1 warehouseW2 productP itemW1P rfl (by decide) (by decide)
      (by decide) (by decide) (by decide)).1,
   ((C6_insufficient_stock_rejection dbW adminU saleReqBig transferReqBig).2.1
      warehouseW1 warehouseW2 productP itemW1P rfl (by decide) (by decide)
      (by decide) (by decide) (by decide)).2.2 2⟩

/-- C7: Purchase upsert semantics — every non-admin caller is rejected
with 403 and no state change; for an admin with warehouse and product
present and positive quantity, an absent ledger row is created at the
requested quantity and a present one is incremented by it, and exactly
one RESTOCK transaction is appended with no source warehouse, the target
warehouse as destination, and the effective cost (provided unit_cost,
else the product's cost_price, possibly null — no margin check). -/
theorem C7_purchase_upsert (db : DB) (user : UserContext) (r : PurchaseRequest) :
    (¬user.role = "admin" →
      record_purchase db user r = .error .purchaseForbidden
        ∧ Op.apply (.purchase user r) db = db
        ∧ Err.httpStatus .purchaseForbidden = 403)
    ∧ (∀ warehouse product,
      user.role = "admin" →
      findWarehouse db r.warehouse_id = some warehouse →
      findProduct db r.product_id = some product →
      0 < r.quantity →
      ((∀ inventory, findItem db r.warehouse_id r.product_id = some inventory →
          record_purchase db user r = .ok
            (appendTxn
              (setItemQty db r.warehouse_id r.product_id
                (inventory.quantity_on_hand + r.quantity))
              (restockTxn r user.user_id (effectivePrice r.unit_cost product.cost_price)),
             { warehouse_id := r.warehouse_id
               product_id := r.product_id
               quantity := r.quantity
               unit_cost := effectivePrice r.unit_cost product.cost_price
               new_stock_level := inventory.quantity_on_hand + r.quantity }))
        ∧ (findItem db r.warehouse_id r.product_id = none →
          record_purchase db user r = .ok
            (appendTxn (insertItem db r.warehouse_id r.product_id r.quantity)
              (restockTxn r user.user_id (effectivePrice r.unit_cost product.cost_price)),
             { warehouse_id := r.warehouse_id
               product_id := r.product_id
               quantity := r.quantity
               unit_cost := effectivePrice r.unit_cost product.cost_price
               new_stock_level := r.quantity })))) := by
  constructor
  · intro h
    have hcond : (user.role != "admin") = true := by simpa [bne_iff_ne] using h
    have herr : record_purchase db user r = .error .purchaseForbidden := by
      simp [record_purchase, hcond]
    exact ⟨herr, by simp [Op.apply, herr], rfl⟩
  · intro warehouse product hRole hW hP _hq
    have hcond : (user.role != "admin") = false := by simp [hRole]
    constructor
    · intro inventory hI
      simp [record_purchase, hcond, hW, hP, hI]
    · intro hI
      simp [record_purchase, hcond, hW, hP, hI]

theorem C7_purchase_upsert_witness :
    record_purchase dbW adminU purchaseReqW2 = .ok
      (appendTxn
        (insertItem dbW purchaseReqW2.warehouse_id purchaseReqW2.product_id
          purchaseReqW2.quantity)
        (restockTxn purchaseReqW2 adminU.user_id
          (effectivePrice purchaseReqW2.unit_cost productP.cost_price)),
       { warehouse_id := purchaseReqW2.warehouse_id
         product_id := purchaseReqW2.product_id
         quantity := purchaseReqW2.quantity
         unit_cost := effectivePrice purchaseReqW2.unit_cost productP.cost_price
         new_stock_level := purchaseReqW2.quantity })
    ∧ record_purchase dbW partnerW1 purchaseReqW2 = .error .purchaseForbidden :=
  ⟨((C7_purchase_upsert dbW adminU purchaseReqW2).2 warehouseW2 productP rfl
      (by decide) (by decide) (by decide)).2 (by decide),
   ((C7_purchase_upsert dbW partnerW1 purchaseReqW2).1 (by decide)).1⟩

/-- C8: Access scoping — for the warehouse-scoped sale recording,
inventory listing and transaction listing, an admin is never rejected by
the access check for any target warehouse; a partner is rejected with
403, before any mutation, exactly when their assigned warehouse is not
the target — so a partner with no assigned warehouse is always
rejected; and the `can_access` policy contract agrees. -/
theorem C8_access_scoping (db : DB) (user : UserContext) (r : SaleRequest)
    (wid : String) (page page_size : Nat) (search : Option String)
    (ttype : Option TransactionType) (brand : Option String) :
    (user.role = "admin" →
      can_access user wid = true
        ∧ record_sale db user r ≠ .error .saleForbidden
        ∧ get_warehouse_inventory db user wid page page_size search
            ≠ .error .inventoryForbidden
        ∧ get_warehouse_transactions db user wid ttype brand page page_size
            ≠ .error .transactionsForbidden)
    ∧ (user.role = "partner" →
      (can_access user wid = true ↔ user.warehouse_id = some wid)
        ∧ (record_sale db user r = .error .saleForbidden
            ↔ ¬user.warehouse_id = some r.warehouse_id)
        ∧ (get_warehouse_inventory db user wid page page_size search
              = .error .inventoryForbidden
            ↔ ¬user.warehouse_id = some wid)
        ∧ (get_warehouse_transactions db user wid ttype brand page page_size
              = .error .transactionsForbidden
            ↔ ¬user.warehouse_id = some wid))
    ∧ (user.role = "partner" → user.warehouse_id = none →
      record_sale db user r = .error .saleForbidden
        ∧ get_warehouse_inventory db user wid page page_size search
            = .error .inventoryForbidden
        ∧ get_warehouse_transactions db user wid ttype brand page page_size
            = .error .transactionsForbidden)
    ∧ Err.httpStatus .saleForbidden = 403
    ∧ Err.httpStatus .inventoryForbidden = 403
    ∧ Err.httpStatus .transactionsForbidden = 403 := by
  refine ⟨?_, ?_, ?_, rfl, rfl, rfl⟩
  · intro h
    refine ⟨by simp [can_access, h], fun hc => ?_, fun hc => ?_, fun hc => ?_⟩
    · exact (record_sale_forbidden_cond db user r hc).1 h
    · exact (inventory_forbidden_cond db user wid page page_size search hc).1 h
    · exact (transactions_listing_forbidden_cond db user wid ttype brand
        page page_size hc).1 h
  · intro h
    have hna : ¬user.role = "admin" := by simp [h]
    refine ⟨by simp [can_access, h], ⟨?_, ?_⟩, ⟨?_, ?_⟩, ⟨?_, ?_⟩⟩
    · exact fun hc => (record_sale_forbidden_cond db user r hc).2
    · exact fun h2 => record_sale_forbidden_of db user r hna h2
    · exact fun hc => (inventory_forbidden_cond db user wid page page_size search hc).2
    · exact fun h2 => inventory_forbidden_of db user wid page page_size search hna h2
    · exact fun hc => (transactions_listing_forbidden_cond db user wid ttype brand
        page page_size hc).2
    · exact fun h2 => transactions_listing_forbidden_of db user wid ttype brand
        page page_size hna h2
  · intro h hnone
    have hna : ¬user.role = "admin" := by simp [h]
    exact ⟨record_sale_forbidden_of db user r hna (by simp [hnone]),
      inventory_forbidden_of db user wid page page_size search hna (by simp [hnone]),
      transactions_listing_forbidden_of db user wid ttype brand page page_size hna
        (by simp [hnone])⟩

/-- C9 counterexample: on a store whose only ledger row has quantity 4
(a low-stock item), the listing without search reports
`low_stock_count = 1`, while the same listing with the search term
"zzz" — which matches no catalog product — short-circuits and reports
`low_stock_count = 0`: the count is not independent of the search
parameter. -/
theorem C9_counterexample :
    (get_warehouse_inventory dbLow adminU "W1" 1 50 none).toOption.map
        (fun resp => resp.low_stock_count) = some 1
    ∧ (get_warehouse_inventory dbLow adminU "W1" 1 50 (some "zzz")).toOption.map
        (fun resp => resp.low_stock_count) = some 0
    ∧ dbLow.inventory_items.map (fun it => it.quantity_on_hand) = [4] :=
  ⟨rfl, rfl, rfl⟩

/-- C9 amended: an item is counted in a listing's low_stock_count
exactly when its quantity_on_hand is < 5, and the count is independent
of pagination; it is also independent of the search parameter except
that a non-empty search matching no catalog product short-circuits the
listing and reports `low_stock_count = 0`. The all-warehouses listing
counts the same way. -/
theorem C9_low_stock_threshold (db : DB) (user : UserContext) (wid : String)
    (page page_size : Nat) (search : Option String) (warehouse : Warehouse)
    (hacc : user.role = "admin" ∨ user.warehouse_id = some wid)
    (hW : findWarehouse db wid = some warehouse) :
    (searchActive search = false ∨ searchProductIds db ((search).getD "") ≠ [] →
      (get_warehouse_inventory db user wid page page_size search).toOption.map
          (fun resp => resp.low_stock_count)
        = some (lowStockCount db wid))
    ∧ (searchActive search = true → searchProductIds db ((search).getD "") = [] →
      (get_warehouse_inventory db user wid page page_size search).toOption.map
          (fun resp => resp.low_stock_count) = some 0)
    ∧ (∀ page' page_size' : Nat,
      (get_warehouse_inventory db user wid page page_size search).toOption.map
          (fun resp => resp.low_stock_count)
        = (get_warehouse_inventory db user wid page' page_size' search).toOption.map
          (fun resp => resp.low_stock_count))
    ∧ lowStockCount db wid
        = ((db.inventory_items.filter (fun it => it.warehouse_id == wid)).filter
            (fun it => decide (it.quantity_on_hand < 5))).length
    ∧ (∀ s ∈ get_all_inventory db user,
        s.low_stock_count = lowStockCount db s.warehouse_id) := by
  have hcond : (user.role != "admin" && user.warehouse_id != some wid) = false := by
    rcases hacc with h | h <;> simp [h]
  have hff : ∀ (wid' : String) (l : List InventoryItem),
      (l.filter (fun it => it.warehouse_id == wid')).filter
          (fun it => decide (it.quantity_on_hand < 5))
        = l.filter (fun it => it.warehouse_id == wid'
            && decide (it.quantity_on_hand < 5)) := by
    intro wid' l
    induction l with
    | nil => rfl
    | cons a tl ih =>
      by_cases h1 : (a.warehouse_id == wid') = true <;>
        by_cases h2 : decide (a.quantity_on_hand < 5) = true <;>
          simp [List.filter, h1, h2, ih]
  have heval : ∀ pg psz : Nat,
      (get_warehouse_inventory db user wid pg psz search).toOption.map
          (fun resp => resp.low_stock_count)
        = (if searchActive search = true
              ∧ searchProductIds db ((search).getD "") = []
           then some 0 else some (lowStockCount db wid)) := by
    intro pg psz
    by_cases hs : searchActive search = true
    · by_cases hids : searchProductIds db ((search).getD "") = []
      · simp [get_warehouse_inventory, hcond, hW, hs, hids, Except.toOption]
      · cases hids' : searchProductIds db ((search).getD "") with
        | nil => exact absurd hids' hids
        | cons x xs =>
          simp [get_warehouse_inventory, hcond, hW, hs, hids', Except.toOption]
    · have hs' : searchActive search = false := by
        cases hv : searchActive search
        · rfl
        · exact absurd hv hs
      simp [get_warehouse_inventory, hcond, hW, hs', Except.toOption]
  refine ⟨?_, ?_, ?_, ?_, ?_⟩
  · intro hcase
    rw [heval page page_size]
    rcases hcase with h | h
    · rw [if_neg]
      rintro ⟨h1, _⟩
      rw [h] at h1
      cases h1
    · rw [if_neg]
      rintro ⟨_, h2⟩
      exact h h2
  · intro h1 h2
    rw [heval page page_size, if_pos ⟨h1, h2⟩]
  · intro page' page_size'
    rw [heval page page_size, heval page' page_size']
  · rw [lowStockCount, hff wid]
  · intro s hs'
    simp only [get_all_inventory, List.mem_map] at hs'
    obtain ⟨w, _hw, rfl⟩ := hs'
    simp only [lowStockCount]
    exact congrArg List.length (hff w.id db.inventory_items)

theorem C9_low_stock_threshold_witness :
    (get_warehouse_inventory dbLow adminU "W1" 1 50 none).toOption.map
        (fun resp => resp.low_stock_count) = some (lowStockCount dbLow "W1")
    ∧ lowStockCount dbLow "W1" = 1
    ∧ lowStockCount dbFive "W1" = 0 :=
  ⟨(C9_low_stock_threshold dbLow adminU "W1" 1 50 none warehouseW1
      (Or.inl rfl) (by decide)).1 (Or.inl rfl),
   by decide, by decide⟩

theorem C8_access_scoping_witness :
    record_sale dbW partnerW1 saleReqW2 = .error .saleForbidden
    ∧ get_warehouse_transactions dbW partnerW1 "W2" none none 1 50
        = .error .transactionsForbidden :=
  ⟨((C8_access_scoping dbW partnerW1 saleReqW2 "W2" 1 50 none none none).2.1
      rfl).2.1.mpr (by decide),
   ((C8_access_scoping dbW partnerW1 saleReqW2 "W2" 1 50 none none none).2.1
      rfl).2.2.2.mpr (by decide)⟩

/-- C10 (implicit): self-transfer is accepted — a transfer whose source
and destination warehouses coincide, with a ledger row and sufficient
stock, passes every validation; because the destination row is re-read
after the persisted source decrement, the single affected row ends at
its initial quantity, yet a TRANSFER_OUT and a TRANSFER_IN are still
appended, both carrying the same warehouse as source and destination. -/
theorem C10_self_transfer (db : DB) (user : UserContext) (t : TransferRequest)
    (warehouse : Warehouse) (product : Product) (item : InventoryItem)
    (hRole : user.role = "admin")
    (hself : t.to_warehouse_id = t.from_warehouse_id)
    (hW : findWarehouse db t.from_warehouse_id = some warehouse)
    (hP : findProduct db t.product_id = some product)
    (hI : findItem db t.from_warehouse_id t.product_id = some item)
    (hstock : t.quantity ≤ item.quantity_on_hand) :
    ∃ db' resp, create_transfer db user t = .ok (db', resp)
      ∧ stockOf db' t.from_warehouse_id t.product_id
          = stockOf db t.from_warehouse_id t.product_id
      ∧ db'.transactions = db.transactions
          ++ [transferOutTxn t warehouse.name user.user_id,
              transferInTxn t warehouse.name user.user_id]
      ∧ (transferOutTxn t warehouse.name user.user_id).transaction_type = .TRANSFER_OUT
      ∧ (transferInTxn t warehouse.name user.user_id).transaction_type = .TRANSFER_IN
      ∧ (transferOutTxn t warehouse.name user.user_id).from_warehouse_id
          = some t.from_warehouse_id
      ∧ (transferOutTxn t warehouse.name user.user_id).to_warehouse_id
          = some t.from_warehouse_id
      ∧ (transferInTxn t warehouse.name user.user_id).from_warehouse_id
          = some t.from_warehouse_id
      ∧ (transferInTxn t warehouse.name user.user_id).to_warehouse_id
          = some t.from_warehouse_id := by
  have hcond : (user.role != "admin") = false := by simp [hRole]
  have hW' : findWarehouse db t.to_warehouse_id = some warehouse := by
    rw [hself]; exact hW
  have hup : transferDestUpsert
      (setItemQty db t.from_warehouse_id t.product_id
        (item.quantity_on_hand - t.quantity)) t
    = setItemQty
        (setItemQty db t.from_warehouse_id t.product_id
          (item.quantity_on_hand - t.quantity))
        t.from_warehouse_id t.product_id
        (item.quantity_on_hand - t.quantity + t.quantity) := by
    unfold transferDestUpsert
    rw [hself, findItem_setItemQty_self, hI]
    rfl
  have hok : create_transfer db user t = .ok
      (appendTxn
        (appendTxn
          (setItemQty
            (setItemQty db t.from_warehouse_id t.product_id
              (item.quantity_on_hand - t.quantity))
            t.from_warehouse_id t.product_id
            (item.quantity_on_hand - t.quantity + t.quantity))
          (transferOutTxn t warehouse.name user.user_id))
        (transferInTxn t warehouse.name user.user_id),
       { from_warehouse_id := t.from_warehouse_id
         to_warehouse_id := t.to_warehouse_id
         product_id := t.product_id
         quantity := t.quantity }) := by
    simp [create_transfer, hcond, hW, hW', hP, hI, Int.not_lt.mpr hstock, hup]
  refine ⟨_, _, hok, ?_, ?_, rfl, rfl, ?_, ?_, ?_, ?_⟩
  · rw [stockOf_appendTxn, stockOf_appendTxn,
      stockOf_setItemQty_self _ _ _ _
        ({ item with quantity_on_hand := item.quantity_on_hand - t.quantity })
        (by rw [findItem_setItemQty_self, hI]; rfl),
      stockOf_find_some db _ _ _ hI]
    omega
  · simp [transactions_appendTxn, transactions_setItemQty]
  · rfl
  · simp [transferOutTxn, hself]
  · rfl
  · simp [transferInTxn, hself]

theorem C10_self_transfer_witness :
    ∃ db' resp, create_transfer dbW adminU transferSelf = .ok (db', resp)
      ∧ stockOf db' transferSelf.from_warehouse_id transferSelf.product_id
          = stockOf dbW transferSelf.from_warehouse_id transferSelf.product_id
      ∧ db'.transactions = dbW.transactions
          ++ [transferOutTxn transferSelf warehouseW1.name adminU.user_id,
              transferInTxn transferSelf warehouseW1.name adminU.user_id]
      ∧ (transferOutTxn transferSelf warehouseW1.name adminU.user_id).transaction_type
          = .TRANSFER_OUT
      ∧ (transferInTxn transferSelf warehouseW1.name adminU.user_id).transaction_type
          = .TRANSFER_IN
      ∧ (transferOutTxn transferSelf warehouseW1.name adminU.user_id).from_warehouse_id
          = some transferSelf.from_warehouse_id
      ∧ (transferOutTxn transferSelf warehouseW1.name adminU.user_id).to_warehouse_id
          = some transferSelf.from_warehouse_id
      ∧ (transferInTxn transferSelf warehouseW1.name adminU.user_id).from_warehouse_id
          = some transferSelf.from_warehouse_id
      ∧ (transferInTxn transferSelf warehouseW1.name adminU.user_id).to_warehouse_id
          = some transferSelf.from_warehouse_id :=
  C10_self_transfer dbW adminU transferSelf warehouseW1 productP itemW1P
    rfl rfl (by decide) (by decide) (by decide) (by decide)

end Inventory
